import Mathlib

/-!
Shallow embedding of the provisioning routine in src/setup.py.

Python strings are embedded as lists of characters (List Char), so that
every string operation the script uses (lower, startswith, split, strip)
is a structurally recursive Lean function the kernel can evaluate. Pure
fragments of the script (line scanning, port parsing, the decision rule
in update_ssh_config) become Lean functions over the file content; the
stateful fragments (group/user database, the filesystem around the
service user's .ssh directory, symlinks) become explicit state passing.
Process exit (sys.exit(1) via print_error) and the daemon restart are
recorded as fields of an effects record.
-/

namespace TurboSetup

/-- A Python str, embedded as its character list. -/
abbrev Str := List Char

/-- Character list of a Lean string literal, used to write Str constants. -/
def chars (s : String) : Str := s.data

/-- Python str.lower(). Only ASCII letters matter for the prefixes the
script tests ("#port 22", "port "): no non-ASCII character lowercases to
an ASCII letter of those prefixes, so ASCII lowering is faithful here. -/
def pyLower (s : Str) : Str := s.map Char.toLower

/-- Python s.startswith(p). -/
def pyStartsWith (s p : Str) : Bool :=
  match s, p with
  | _, [] => true
  | [], _ :: _ => false
  | c :: s, d :: p => c = d && pyStartsWith s p

/-- Python s.split(sep) for a single-character separator: splits at every
occurrence, keeping empty pieces. -/
def pySplit (sep : Char) : Str → List Str
  | [] => [[]]
  | c :: rest =>
    match pySplit sep rest with
    | [] => [[c]]
    | h :: t => if c = sep then [] :: h :: t else (c :: h) :: t

/-- The whitespace set of Python str.strip(), i.e. CPython's
Py_UNICODE_ISSPACE: the ASCII control whitespace 0x09-0x0D (tab, LF,
vertical tab, form feed, CR), the file/group/record/unit separators
0x1C-0x1F, space 0x20, next line 0x85, no-break space 0xA0, and the
Unicode space characters U+1680, U+2000-U+200A, U+2028, U+2029, U+202F,
U+205F and U+3000. -/
def pyIsSpace (c : Char) : Bool :=
  decide ((9 ≤ c.toNat ∧ c.toNat ≤ 13) ∨ (28 ≤ c.toNat ∧ c.toNat ≤ 31) ∨
    c.toNat = 32 ∨ c.toNat = 133 ∨ c.toNat = 160 ∨ c.toNat = 0x1680 ∨
    (0x2000 ≤ c.toNat ∧ c.toNat ≤ 0x200A) ∨ c.toNat = 0x2028 ∨ c.toNat = 0x2029 ∨
    c.toNat = 0x202F ∨ c.toNat = 0x205F ∨ c.toNat = 0x3000)

/-- Python s.strip(): drop leading and trailing whitespace. -/
def pyStrip (s : Str) : Str :=
  ((s.dropWhile pyIsSpace).reverse.dropWhile pyIsSpace).reverse

/-! ## SSH listener reconfiguration (update_ssh_config, setup.py lines 136-163) -/

/-- Python: line.lower().startswith("#port 22") (setup.py line 147). -/
def isCommentedDefault (line : Str) : Bool :=
  pyStartsWith (pyLower line) (chars "#port 22")

/-- Python: line.lower().startswith("port ") (setup.py line 151). -/
def isActivePort (line : Str) : Bool :=
  pyStartsWith (pyLower line) (chars "port ")

/-- A line the scan loop breaks on: either pattern of the if/elif. -/
def portRelated (line : Str) : Bool :=
  isCommentedDefault line || isActivePort line

/-- Python: line.split(" ")[1].strip() (setup.py line 152). The elif
guard guarantees the line contains a space, so index 1 exists; getD
mirrors the defined behaviour on that branch. -/
def portLineValue (line : Str) : Str :=
  pyStrip ((pySplit ' ' line).getD 1 [])

/-- The replacement line f"Port {ssh_port}\n" (setup.py line 148). -/
def activeLine (ssh_port : Str) : Str :=
  chars "Port " ++ ssh_port ++ chars "\n"

/-- The for loop of setup.py lines 146-153: walk the lines; on the first
line matching "#port 22" (case-insensitively) replace it by an active
directive for ssh_port and break; otherwise on the first line matching
"port " record its parsed value as the current port and break. Returns
the (possibly mutated) line list together with the final value of the
current_port variable (initialised to "22" at line 139). -/
def scanLines (ssh_port : Str) : List Str → List Str × Str
  | [] => ([], chars "22")
  | line :: rest =>
    if isCommentedDefault line then
      (activeLine ssh_port :: rest, chars "22")
    else if isActivePort line then
      (line :: rest, portLineValue line)
    else
      let r := scanLines ssh_port rest
      (line :: r.1, r.2)

/-- Observable effects of one call to update_ssh_config: whether the
process exited (sys.exit status), the content written back to the config
file (none when the file was not rewritten), and whether the daemon
restart command was issued. -/
structure SSHEffects where
  exited : Option Nat
  written : Option (List Str)
  restarted : Bool
deriving Repr, DecidableEq

/-- Python constant default_ssh_port = "22" (setup.py line 138). -/
def default_ssh_port : Str := chars "22"

/-- update_ssh_config (setup.py lines 136-163). The file argument is the
config file content as a line list, or none when /etc/ssh/sshd_config
does not exist: in that case print_error exits the process with status 1
(setup.py lines 141-142 and 21-26) before any read, write or restart.
Otherwise the lines are scanned, and the decision rule (line 155) writes
the scanned line list back and restarts sshd iff the recorded current
port equals the default "22". -/
def update_ssh_config (ssh_port : Str) (file : Option (List Str)) : SSHEffects :=
  match file with
  | none => { exited := some 1, written := none, restarted := false }
  | some lines =>
    let r := scanLines ssh_port lines
    if r.2 = default_ssh_port then
      { exited := none, written := some r.1, restarted := true }
    else
      { exited := none, written := none, restarted := false }

/-! ## Identity provisioning (create_group, create_user, setup.py lines 60-76) -/

/-- The host state the identity provisioner touches: the group database,
the user database, and the (user, group) membership relation mutated by
usermod -aG. Lists model the databases; the order of insertion is kept. -/
structure SysState where
  groups : List Str
  users : List Str
  memberships : List (Str × Str)
deriving Repr, DecidableEq

/-- create_group (setup.py lines 60-66): grp.getgrnam succeeds when the
group is in the database, in which case only a warning is printed;
otherwise the KeyError branch runs groupadd, adding the group. -/
def create_group (s : SysState) (g : Str) : SysState :=
  if g ∈ s.groups then s
  else { s with groups := s.groups ++ [g] }

/-- create_user (setup.py lines 68-76): pwd.getpwnam succeeds when the
user is in the database, in which case only a warning is printed;
otherwise the KeyError branch runs useradd -m (adding the user) followed
by usermod -aG group user (adding the membership). -/
def create_user (s : SysState) (u g : Str) : SysState :=
  if u ∈ s.users then s
  else { s with users := s.users ++ [u], memberships := s.memberships ++ [(u, g)] }

/-! ## Key material (generate_ssh_key_pair, setup.py lines 115-134) -/

/-- The slice of the filesystem generate_ssh_key_pair touches, for one
user: the private key file /home/user/.ssh/id_rsa, the public key file
id_rsa.pub, the authorized_keys file, and the latter's permission mode.
A field is none when the file is absent, some content when present. -/
structure UserSshState where
  privKey : Option Str
  pubKey : Option Str
  authKeys : Option Str
  authKeysMode : Option Str
deriving Repr, DecidableEq

/-- setup.py lines 118-122: if the private key file is absent, ssh-keygen
creates the key pair; the generated material is the gen parameter
(private key content, public key content), standing for the randomly
generated RSA material. If the file is present, nothing happens. The
returned Bool records whether generation was invoked. -/
def keygen_step (gen : Str × Str) (fs : UserSshState) : UserSshState × Bool :=
  if fs.privKey.isSome then (fs, false)
  else ({ fs with privKey := some gen.1, pubKey := some gen.2 }, true)

/-- setup.py lines 124-130: if authorized_keys is absent, create_file
touches it into existence (empty) and chmod_file sets mode 600; if it is
present, only a warning is printed and the chmod is skipped. The Bool
records whether the create-and-chmod branch ran. -/
def authorized_keys_step (fs : UserSshState) : UserSshState × Bool :=
  if fs.authKeys.isSome then (fs, false)
  else ({ fs with authKeys := some [], authKeysMode := some (chars "600") }, true)

/-- setup.py lines 132-134: open the public key file for reading (a
FileNotFoundError, modelled as none, if it is absent) and append its full
contents to authorized_keys (mode "a" creates the file when missing, so
the append target content defaults to empty). -/
def append_step (fs : UserSshState) : Option UserSshState :=
  match fs.pubKey with
  | none => none
  | some k => some { fs with authKeys := some (fs.authKeys.getD [] ++ k) }

/-- generate_ssh_key_pair (setup.py lines 115-134): the three steps in
program order — key generation, authorized_keys creation, unconditional
append of the public key. -/
def generate_ssh_key_pair (gen : Str × Str) (fs : UserSshState) : Option UserSshState :=
  append_step (authorized_keys_step (keygen_step gen fs).1).1

/-! ## Symlinks (create_symlink, setup.py lines 93-98) -/

/-- A filesystem entry as os.symlink distinguishes them: it fails with
FileExistsError for any existing entry at the destination path, be it a
symlink (to whatever target), a regular file or a directory. -/
inductive FsEntry where
  | symlink (target : Str)
  | file
  | dir
deriving Repr, DecidableEq

/-- The entry at a path, none when no entry exists there. -/
def lookupEntry : List (Str × FsEntry) → Str → Option FsEntry
  | [], _ => none
  | (p, e) :: rest, q => if p = q then some e else lookupEntry rest q

/-- create_symlink (setup.py lines 93-98): os.symlink(source, destination)
creates the link when no entry exists at destination; when any entry
exists there it raises FileExistsError, which the except branch swallows
with a warning, leaving the filesystem unchanged. -/
def create_symlink (fs : List (Str × FsEntry)) (source destination : Str) :
    List (Str × FsEntry) :=
  match lookupEntry fs destination with
  | some _ => fs
  | none => fs ++ [(destination, FsEntry.symlink source)]

/-! ## Helper lemmas -/

theorem chars_port : chars "port " = ['p', 'o', 'r', 't', ' '] := rfl

theorem chars_hash_port : chars "#port 22" = ['#', 'p', 'o', 'r', 't', ' ', '2', '2'] := rfl

theorem portRelated_false_elim {l : Str} (h : portRelated l = false) :
    isCommentedDefault l = false ∧ isActivePort l = false := by
  unfold portRelated at h
  exact Bool.or_eq_false_iff.mp h

/-- A line the elif branch fires on cannot also match the if branch: its
lowered first character is a letter p, not a hash. -/
theorem active_not_commented (l : Str) (h : isActivePort l = true) :
    isCommentedDefault l = false := by
  cases l with
  | nil => simp [isActivePort, pyLower, pyStartsWith, chars_port] at h
  | cons c s =>
    have h1 : Char.toLower c = 'p' := by
      simp [isActivePort, pyLower, pyStartsWith, chars_port, Bool.and_eq_true] at h
      exact h.1
    simp [isCommentedDefault, pyLower, pyStartsWith, chars_hash_port, h1]

/-- Lines the loop does not break on are passed over unchanged and the
scan continues on the remainder. -/
theorem scanLines_append (ssh_port : Str) (pre rest : List Str)
    (h : ∀ l ∈ pre, portRelated l = false) :
    scanLines ssh_port (pre ++ rest) =
      (pre ++ (scanLines ssh_port rest).1, (scanLines ssh_port rest).2) := by
  induction pre with
  | nil => simp
  | cons a t ih =>
    obtain ⟨h1, h2⟩ := portRelated_false_elim (h a (List.mem_cons_self a t))
    have ih2 := ih (fun l hl => h l (List.mem_cons_of_mem a hl))
    simp [scanLines, h1, h2, ih2]

/-! ## Claims about update_ssh_config -/

/-- C1: for every config file content and every target port,
update_ssh_config writes the file back and restarts the daemon if and
only if the recorded current port (the current_port variable after the
scan) equals the default "22"; in particular, when the first port-related
line of the file is an active directive for a non-default port, nothing
is written and no restart is triggered. -/
theorem c1_rewrite_iff_default (ssh_port : Str) (lines : List Str) :
    (((update_ssh_config ssh_port (some lines)).written.isSome = true ∧
        (update_ssh_config ssh_port (some lines)).restarted = true) ↔
      (scanLines ssh_port lines).2 = default_ssh_port) ∧
    (∀ pre line rest, lines = pre ++ line :: rest →
      (∀ l ∈ pre, portRelated l = false) →
      isActivePort line = true →
      portLineValue line ≠ default_ssh_port →
      (update_ssh_config ssh_port (some lines)).written = none ∧
      (update_ssh_config ssh_port (some lines)).restarted = false) := by
  constructor
  · by_cases h : (scanLines ssh_port lines).2 = default_ssh_port <;>
      simp [update_ssh_config, h]
  · rintro pre line rest rfl hpre hact hval
    have hcom : isCommentedDefault line = false := active_not_commented line hact
    have hs := scanLines_append ssh_port pre (line :: rest) hpre
    simp [update_ssh_config, hs, scanLines, hcom, hact, hval]

/-- Witness for C1 at the spec's own example: a file whose first
port-related line is the active directive "Port 8080". -/
theorem c1_rewrite_iff_default_witness :
    (update_ssh_config (chars "2222") (some [chars "Port 8080\n"])).written = none ∧
    (update_ssh_config (chars "2222") (some [chars "Port 8080\n"])).restarted = false :=
  (c1_rewrite_iff_default (chars "2222") [chars "Port 8080\n"]).2
    [] (chars "Port 8080\n") [] rfl (by simp) (by decide) (by decide)

/-- C2 counterexample: a file that contains a line matching the commented
default-port directive "#Port 22" (and the target port 2222), for which
update_ssh_config nevertheless replaces nothing, writes nothing back and
does not restart the daemon — because an active directive line occurs
earlier and the single scan loop breaks on it first. -/
theorem c2_scan_counterexample :
    ([chars "Port 8080\n", chars "#Port 22\n"].any isCommentedDefault = true) ∧
    (update_ssh_config (chars "2222")
        (some [chars "Port 8080\n", chars "#Port 22\n"])).written = none ∧
    (update_ssh_config (chars "2222")
        (some [chars "Port 8080\n", chars "#Port 22\n"])).restarted = false := by
  decide

/-- C2 amended: the scan stops at the first line matching either pattern
of the if/elif; when no port-related line precedes it, the first line
matching "#Port 22" (case-insensitively) — and only that line — is
replaced by "Port <newPort>\n", the mutated line list is written back,
and the daemon restart is triggered. -/
theorem c2_first_commented_replaced (ssh_port : Str) (pre : List Str) (line : Str)
    (rest : List Str)
    (hpre : ∀ l ∈ pre, portRelated l = false)
    (hline : isCommentedDefault line = true) :
    (update_ssh_config ssh_port (some (pre ++ line :: rest))).written =
      some (pre ++ activeLine ssh_port :: rest) ∧
    (update_ssh_config ssh_port (some (pre ++ line :: rest))).restarted = true := by
  have hs := scanLines_append ssh_port pre (line :: rest) hpre
  simp [update_ssh_config, hs, scanLines, hline, default_ssh_port]

/-- Witness for the amended C2 at the spec's example: a file containing
"#Port 22" with no earlier port-related line, target port 2222. -/
theorem c2_first_commented_replaced_witness :
    (update_ssh_config (chars "2222") (some [chars "#Port 22\n"])).written =
      some [chars "Port 2222\n"] ∧
    (update_ssh_config (chars "2222") (some [chars "#Port 22\n"])).restarted = true := by
  have h := c2_first_commented_replaced (chars "2222") [] (chars "#Port 22\n") []
    (by simp) (by decide)
  have e : activeLine (chars "2222") = chars "Port 2222\n" := by decide
  simpa [e] using h

/-- C3: when the SSH config file does not exist, update_ssh_config exits
the process with status 1 (a non-zero status), writing nothing and
restarting nothing. -/
theorem c3_missing_config_fatal (ssh_port : Str) :
    (update_ssh_config ssh_port none).exited = some 1 ∧
    (1 : Nat) ≠ 0 ∧
    (update_ssh_config ssh_port none).written = none ∧
    (update_ssh_config ssh_port none).restarted = false := by
  refine ⟨rfl, by decide, rfl, rfl⟩

/-- Witness for C3 at a concrete port. -/
theorem c3_missing_config_fatal_witness :
    (update_ssh_config (chars "2222") none).exited = some 1 ∧
    (1 : Nat) ≠ 0 ∧
    (update_ssh_config (chars "2222") none).written = none ∧
    (update_ssh_config (chars "2222") none).restarted = false :=
  c3_missing_config_fatal (chars "2222")

/-- C10: for a file with no line matching "#port 22" (case-insensitively)
whose first active "port " line carries the value 22 itself, the new port
is never inserted: the file is written back identical to what was read,
and the daemon is still restarted. -/
theorem c10_active_default_rewrites_identically (ssh_port : Str) (pre : List Str)
    (line : Str) (rest : List Str)
    (hno : ∀ l ∈ pre ++ line :: rest, isCommentedDefault l = false)
    (hpre : ∀ l ∈ pre, isActivePort l = false)
    (hline : isActivePort line = true)
    (hval : portLineValue line = default_ssh_port) :
    (update_ssh_config ssh_port (some (pre ++ line :: rest))).written =
      some (pre ++ line :: rest) ∧
    (update_ssh_config ssh_port (some (pre ++ line :: rest))).restarted = true := by
  have hrel : ∀ l ∈ pre, portRelated l = false := by
    intro l hl
    have h1 : isCommentedDefault l = false := hno l (List.mem_append_left _ hl)
    have h2 : isActivePort l = false := hpre l hl
    simp [portRelated, h1, h2]
  have hcom : isCommentedDefault line = false :=
    hno line (List.mem_append_right _ (List.mem_cons_self line rest))
  have hs := scanLines_append ssh_port pre (line :: rest) hrel
  simp [update_ssh_config, hs, scanLines, hcom, hline, hval]

/-- Witness for C10: the one-line file "Port 22" is written back
unchanged and the daemon restarted. -/
theorem c10_active_default_rewrites_identically_witness :
    (update_ssh_config (chars "2222") (some [chars "Port 22\n"])).written =
      some [chars "Port 22\n"] ∧
    (update_ssh_config (chars "2222") (some [chars "Port 22\n"])).restarted = true := by
  have h := c10_active_default_rewrites_identically (chars "2222") [] (chars "Port 22\n") []
    (by decide) (by simp) (by decide) (by decide)
  simpa using h

/-! ## Claims about identity provisioning -/

/-- C4: calling create_group twice leaves the group existing exactly
once: the first call creates it when absent, and the second call is a
no-op on the group database. The count hypothesis is the group database
invariant (at most one group per name). -/
theorem c4_create_group_idempotent (s : SysState) (g : Str)
    (h : s.groups.count g ≤ 1) :
    g ∈ (create_group s g).groups ∧
    (create_group s g).groups.count g = 1 ∧
    create_group (create_group s g) g = create_group s g := by
  by_cases hg : g ∈ s.groups
  · have hpos : 0 < s.groups.count g := List.count_pos_iff.mpr hg
    have hone : s.groups.count g = 1 := Nat.le_antisymm h hpos
    simp [create_group, hg, hone]
  · have hz : s.groups.count g = 0 := List.count_eq_zero_of_not_mem hg
    simp [create_group, hg, hz]

/-- Witness for C4: provisioning the docker group on an empty database. -/
theorem c4_create_group_idempotent_witness :
    (chars "docker") ∈ (create_group ⟨[], [], []⟩ (chars "docker")).groups ∧
    (create_group ⟨[], [], []⟩ (chars "docker")).groups.count (chars "docker") = 1 ∧
    create_group (create_group ⟨[], [], []⟩ (chars "docker")) (chars "docker") =
      create_group ⟨[], [], []⟩ (chars "docker") :=
  c4_create_group_idempotent ⟨[], [], []⟩ (chars "docker") (by decide)

/-- C5: after create_user on an absent user, the user is a member of the
group; on the branch where the user already exists, create_user performs
no mutation at all (so membership is established only on the creation
branch). -/
theorem c5_create_user_membership (s : SysState) (u g : Str) :
    (u ∉ s.users → (u, g) ∈ (create_user s u g).memberships) ∧
    (u ∈ s.users → create_user s u g = s) := by
  constructor
  · intro h
    simp [create_user, h]
  · intro h
    simp [create_user, h]

/-- Witness for C5: creating a fresh user establishes membership, and a
second call on the now-existing user changes nothing. -/
theorem c5_create_user_membership_witness :
    ((chars "alice", chars "docker") ∈
      (create_user ⟨[chars "docker"], [], []⟩ (chars "alice") (chars "docker")).memberships) ∧
    (create_user ⟨[chars "docker"], [chars "alice"], []⟩ (chars "alice") (chars "docker") =
      ⟨[chars "docker"], [chars "alice"], []⟩) :=
  ⟨(c5_create_user_membership ⟨[chars "docker"], [], []⟩ (chars "alice") (chars "docker")).1
      (by decide),
   (c5_create_user_membership ⟨[chars "docker"], [chars "alice"], []⟩ (chars "alice")
      (chars "docker")).2 (by decide)⟩

/-! ## Claims about key material -/

/-- Any successful run of generate_ssh_key_pair leaves the private key
file present. -/
theorem generate_priv_isSome (gen : Str × Str) (fs fs₁ : UserSshState)
    (h : generate_ssh_key_pair gen fs = some fs₁) : fs₁.privKey.isSome = true := by
  obtain ⟨priv, pub, auth, mode⟩ := fs
  cases priv <;> cases pub <;> cases auth <;>
      simp [generate_ssh_key_pair, keygen_step, authorized_keys_step, append_step] at h <;>
    simp [← h]

/-- C6: the public-key append is unconditional: whenever the key pair and
public key file are present, each run appends the full public key content
to authorized_keys, so two consecutive runs append it twice. -/
theorem c6_append_unconditional (gen₁ gen₂ : Str × Str) (fs : UserSshState) (k : Str)
    (hp : fs.privKey.isSome = true) (hk : fs.pubKey = some k) :
    ∃ fs₁ fs₂,
      generate_ssh_key_pair gen₁ fs = some fs₁ ∧
      generate_ssh_key_pair gen₂ fs₁ = some fs₂ ∧
      fs₁.authKeys = some (fs.authKeys.getD [] ++ k) ∧
      fs₂.authKeys = some (fs.authKeys.getD [] ++ k ++ k) := by
  obtain ⟨priv, pub, auth, mode⟩ := fs
  cases priv with
  | none => simp at hp
  | some p =>
    subst hk
    cases auth with
    | none => exact ⟨_, _, rfl, rfl, rfl, rfl⟩
    | some a => exact ⟨_, _, rfl, rfl, rfl, rfl⟩

/-- Witness for C6: a provisioned state whose authorized_keys already
holds content A ends with the public key content appended twice. -/
theorem c6_append_unconditional_witness :
    ∃ fs₁ fs₂,
      generate_ssh_key_pair (chars "genP", chars "genK")
          ⟨some (chars "P"), some (chars "K"), some (chars "A"), some (chars "600")⟩ =
        some fs₁ ∧
      generate_ssh_key_pair (chars "genP2", chars "genK2") fs₁ = some fs₂ ∧
      fs₁.authKeys = some (chars "A" ++ chars "K") ∧
      fs₂.authKeys = some (chars "A" ++ chars "K" ++ chars "K") :=
  c6_append_unconditional (chars "genP", chars "genK") (chars "genP2", chars "genK2")
    ⟨some (chars "P"), some (chars "K"), some (chars "A"), some (chars "600")⟩
    (chars "K") (by decide) (by decide)

/-- C7: key generation is guarded solely by existence of the private key
file — the generation branch runs iff the private key is absent — and
after any successful run a second run's generation branch is a no-op. -/
theorem c7_keygen_guard (gen₁ gen₂ : Str × Str) (fs : UserSshState) :
    ((keygen_step gen₁ fs).2 = true ↔ fs.privKey = none) ∧
    (∀ fs₁, generate_ssh_key_pair gen₁ fs = some fs₁ →
      keygen_step gen₂ fs₁ = (fs₁, false)) := by
  constructor
  · cases h : fs.privKey <;> simp [keygen_step, h]
  · intro fs₁ h1
    have hp := generate_priv_isSome gen₁ fs fs₁ h1
    simp [keygen_step, hp]

/-- Witness for C7: after one full run from a provisioned state, the
second run's generation step changes nothing. -/
theorem c7_keygen_guard_witness :
    keygen_step (chars "genP2", chars "genK2")
        ⟨some (chars "P"), some (chars "K"), some (chars "A" ++ chars "K"),
          some (chars "600")⟩ =
      (⟨some (chars "P"), some (chars "K"), some (chars "A" ++ chars "K"),
          some (chars "600")⟩, false) :=
  (c7_keygen_guard (chars "genP", chars "genK") (chars "genP2", chars "genK2")
      ⟨some (chars "P"), some (chars "K"), some (chars "A"), some (chars "600")⟩).2
    ⟨some (chars "P"), some (chars "K"), some (chars "A" ++ chars "K"), some (chars "600")⟩
    (by decide)

/-- C8: authorized_keys is created empty with mode 600 exactly when it is
absent at the check; when it already exists both the creation and the
chmod are skipped, and a full run never changes a pre-existing file's
mode. -/
theorem c8_authorized_keys_creation (gen : Str × Str) (fs : UserSshState) :
    (fs.authKeys = none →
      (authorized_keys_step fs).1.authKeys = some [] ∧
      (authorized_keys_step fs).1.authKeysMode = some (chars "600") ∧
      (authorized_keys_step fs).2 = true) ∧
    (fs.authKeys.isSome = true → authorized_keys_step fs = (fs, false)) ∧
    (∀ fs₁, fs.authKeys.isSome = true → generate_ssh_key_pair gen fs = some fs₁ →
      fs₁.authKeysMode = fs.authKeysMode) := by
  refine ⟨?_, ?_, ?_⟩
  · intro h
    simp [authorized_keys_step, h]
  · intro h
    simp [authorized_keys_step, h]
  · intro fs₁ h h1
    obtain ⟨priv, pub, auth, mode⟩ := fs
    cases auth with
    | none => simp at h
    | some a =>
      cases priv <;> cases pub <;>
          simp [generate_ssh_key_pair, keygen_step, authorized_keys_step, append_step] at h1 <;>
        simp [← h1]

/-- Witness for C8: on a state with no authorized_keys file, the step
creates it empty, sets mode 600 and reports that it ran. -/
theorem c8_authorized_keys_creation_witness :
    (authorized_keys_step (⟨none, none, none, none⟩ : UserSshState)).1.authKeys = some [] ∧
    (authorized_keys_step (⟨none, none, none, none⟩ : UserSshState)).1.authKeysMode =
      some (chars "600") ∧
    (authorized_keys_step (⟨none, none, none, none⟩ : UserSshState)).2 = true :=
  (c8_authorized_keys_creation (chars "genP", chars "genK") ⟨none, none, none, none⟩).1 rfl

/-! ## Claim about symlinks -/

/-- C9: create_symlink creates the link iff no entry exists at the
destination; when any entry exists there — whatever its kind or target —
the filesystem is left completely unchanged. -/
theorem c9_create_symlink_guard (fs : List (Str × FsEntry)) (source destination : Str) :
    (lookupEntry fs destination = none →
      create_symlink fs source destination =
        fs ++ [(destination, FsEntry.symlink source)]) ∧
    (∀ e, lookupEntry fs destination = some e →
      create_symlink fs source destination = fs) := by
  constructor
  · intro h
    simp [create_symlink, h]
  · intro e h
    simp [create_symlink, h]

/-- Witness for C9: a pre-existing symlink pointing elsewhere is left
untouched, and a fresh path gets the link. -/
theorem c9_create_symlink_guard_witness :
    create_symlink [(chars "/home/u/app", FsEntry.symlink (chars "/elsewhere"))]
        (chars "/opt/app") (chars "/home/u/app") =
      [(chars "/home/u/app", FsEntry.symlink (chars "/elsewhere"))] ∧
    create_symlink [] (chars "/opt/app") (chars "/home/u/app") =
      [(chars "/home/u/app", FsEntry.symlink (chars "/opt/app"))] :=
  ⟨(c9_create_symlink_guard [(chars "/home/u/app", FsEntry.symlink (chars "/elsewhere"))]
      (chars "/opt/app") (chars "/home/u/app")).2
    (FsEntry.symlink (chars "/elsewhere")) (by decide),
   (c9_create_symlink_guard [] (chars "/opt/app") (chars "/home/u/app")).1 rfl⟩

end TurboSetup
